import Mathlib

/-!
Verification of the data-consistency core of the ubase-app education-management
application (src/app.py) against its natural-language specification.

The embedding below follows the Python source closely:

* every sheet cell is modelled as its text representation (`String`), matching
  the fact that `write_sheet_df` serialises every cell with `astype(str)` and
  the read path compares values as strings;
* Python's `int(str)` (a try/except around it appears in every id-allocation
  loop) is modelled by `pyParseInt`, which accepts optional surrounding
  whitespace, an optional sign and a non-empty digit run.  Underscore-separated
  integer literals, which Python would also accept, are not modelled: the
  application only ever writes `str(n)` values, which never contain them;
* `str.strip()` is modelled by `pyStrip`;
* a pandas `DataFrame` is modelled as a `List` of rows; a row is either a
  structure (one field per column) or an association list
  `List (String × String)` where the column set itself is at stake;
* JSON sub-document cells are modelled by `RawDoc α`: a cell either holds a
  well-formed document, the empty string, or malformed text, matching the
  `try: json.loads(cell or "{}") except: default` idiom of every read site.
-/

namespace Ubase

/-! ## Python string primitives -/

/-- Model of `str.strip()`: drop whitespace from both ends. -/
def pyStrip (s : String) : String :=
  ⟨((s.data.dropWhile Char.isWhitespace).reverse.dropWhile Char.isWhitespace).reverse⟩

/-- Parse a non-empty run of decimal digits; `none` if empty or any non-digit. -/
def parseDigits (cs : List Char) : Option Nat :=
  if cs.isEmpty then none
  else if cs.all Char.isDigit then
    some (cs.foldl (fun n c => 10 * n + (c.toNat - 48)) 0)
  else none

/-- Parse an optional sign followed by digits (the body of a Python int literal). -/
def parseIntLit : List Char → Option Int
  | '+' :: cs => (parseDigits cs).map Int.ofNat
  | '-' :: cs => (parseDigits cs).map (fun n => -(Int.ofNat n : Int))
  | cs => (parseDigits cs).map Int.ofNat

/-- Model of Python `int(s)` on a string: strips surrounding whitespace, then
parses an optionally signed digit run; `none` models the `ValueError` branch. -/
def pyParseInt (s : String) : Option Int :=
  parseIntLit (pyStrip s).data

/-! ## Sheet schemas (src/app.py lines 31-74, `SHEET_SCHEMAS`) -/

def SHEET_SCHEMAS (name : String) : List String :=
  if name = "users" then ["username", "name", "password_hash", "role"]
  else if name = "students" then
    ["student_id", "name", "grade", "school_name", "target_school",
     "admission_goal", "student_login_id", "subjects", "mock_subjects", "created_at"]
  else if name = "exam_results" then
    ["id", "student_id", "exam_category", "exam_name", "date", "results_json", "created_at"]
  else if name = "coaching_reports" then
    ["id", "student_id", "date", "student_eval_json", "teacher_eval_json",
     "study_schedule_json", "study_targets_json", "created_at"]
  else if name = "eiken_records" then
    ["id", "student_id", "target_grade", "exam_date", "practice_date",
     "category", "scores_json", "created_at"]
  else []

/-- The column lists of spec §6 ("bit-exact schema implementers must
reproduce").  This definition follows the SPEC's words, not the source; it is
the comparison target for claim C3. -/
def specSheetSchemas (name : String) : List String :=
  if name = "users" then ["username", "name", "password_hash", "role"]
  else if name = "students" then
    ["student_id", "name", "grade", "school_name", "target_school",
     "admission_goal", "student_login_id", "subjects", "mock_subjects", "created_at"]
  else if name = "exam_results" then
    ["id", "student_id", "exam_category", "exam_name", "date", "results_json",
     "created_at", "teacher_username", "teacher_name"]
  else if name = "coaching_reports" then
    ["id", "student_id", "date", "student_eval_json", "teacher_eval_json",
     "study_schedule_json", "study_targets_json", "created_at", "updated_at",
     "teacher_username", "teacher_name"]
  else if name = "eiken_records" then
    ["id", "student_id", "target_grade", "exam_date", "practice_date", "category",
     "scores_json", "created_at", "updated_at", "teacher_username", "teacher_name"]
  else []

/-! ## `_ensure_columns` / `write_sheet_df` (src/app.py lines 240-270)

`_ensure_columns(df, name)` synthesises every schema column missing from `df`
as the empty string and then restricts `df` to exactly `SHEET_SCHEMAS[name]`,
in order (`df[cols]`).  On a single row (an association list column → value)
this is `ensureRow`; `write_sheet_df` applies it to every row before
persisting. -/

/-- A row as an association list from column name to (string) cell value. -/
abbrev ARow := List (String × String)

def ensureRow (schema : List String) (row : ARow) : ARow :=
  schema.map (fun c => (c, (row.lookup c).getD ""))

/-- `write_sheet_df`: every persisted row is `_ensure_columns`-normalised to the
declared schema of the sheet. -/
def write_sheet_df (name : String) (rows : List ARow) : List ARow :=
  rows.map (ensureRow (SHEET_SCHEMAS name))

/-! ## Student-id allocator (src/app.py lines 355-417, `generate_new_student_id`)

Each table contributes its `student_id` column, modelled as the list of cell
texts.  The `students_df is not None / not empty / column present` guards are
vacuous here: `load_sheet_df` always yields the schema columns, and an empty
table contributes an empty column. -/

/-- One of the four collection loops: strip, skip blanks, `try: int(v)` and
append, `except: pass`. -/
def collectInto (acc : List Int) (col : List String) : List Int :=
  col.foldl
    (fun ids v =>
      let t := pyStrip v
      if t = "" then ids
      else
        match parseIntLit t.data with
        | some n => ids ++ [n]
        | none => ids)
    acc

def generate_new_student_id (students exams coaching eiken : List String) : Int :=
  let all_ids := collectInto (collectInto (collectInto (collectInto [] students) exams) coaching) eiken
  match all_ids with
  | [] => 250001
  | x :: xs => xs.foldl max x + 1

/-! ## Student create / cascade-delete sequences (claim C1)

For the id-reuse question only the `student_id` columns of the four tables
matter, so a state is the four columns.  `createStudent` is the registration
branch of `page_student_management` (lines 760-782): allocate
`generate_new_student_id`, append a row whose `student_id` cell is `str(new_id)`.
`cascadeDeleteIds` is the master-credentialed delete branch (lines 1040-1062):
drop from each of the four tables every row whose `student_id` (as a string)
is in the selected id list. -/

structure S4 where
  students : List String
  exams : List String
  coaching : List String
  eiken : List String
deriving DecidableEq, Repr

def createStudent (s : S4) : S4 × Int :=
  let nid := generate_new_student_id s.students s.exams s.coaching s.eiken
  ({ s with students := s.students ++ [toString nid] }, nid)

def cascadeDeleteIds (s : S4) (delete_ids : List String) : S4 :=
  { students := s.students.filter (fun v => !(delete_ids.contains v))
    exams := if s.exams = [] then s.exams else s.exams.filter (fun v => !(delete_ids.contains v))
    coaching := if s.coaching = [] then s.coaching else s.coaching.filter (fun v => !(delete_ids.contains v))
    eiken := if s.eiken = [] then s.eiken else s.eiken.filter (fun v => !(delete_ids.contains v)) }

/-! ## Cascade delete with full rows (claim C5)

Claim C5 is about which ROWS survive, so here a row keeps its `student_id`
cell plus the remaining columns as an opaque association list (the filter in
lines 1040-1062 never looks at them).  `student_id` values are compared as
strings on both sides (`students_df["student_id"]` is `astype(str)`-normalised
at line 862, the dependent tables at the filter itself). -/

structure DRow where
  student_id : String
  rest : List (String × String)
deriving DecidableEq, Repr

structure DTables where
  students : List DRow
  exam_results : List DRow
  coaching_reports : List DRow
  eiken_records : List DRow
deriving DecidableEq, Repr

/-- The four-table delete of `page_student_management` (lines 1040-1062): each
dependent table is rewritten only when non-empty, which changes nothing for an
empty table. -/
def cascadeDelete (t : DTables) (delete_ids : List String) : DTables :=
  let keep := fun r : DRow => !(delete_ids.contains r.student_id)
  { students := t.students.filter keep
    exam_results := if t.exam_results = [] then t.exam_results else t.exam_results.filter keep
    coaching_reports := if t.coaching_reports = [] then t.coaching_reports else t.coaching_reports.filter keep
    eiken_records := if t.eiken_records = [] then t.eiken_records else t.eiken_records.filter keep }

/-! ## Grade promotion (claims C6; src/app.py lines 503-527 and 976-1009) -/

def PROMOTION_MAP : List (String × String) :=
  [("小1", "小2"), ("小2", "小3"), ("小3", "小4"), ("小4", "小5"), ("小5", "小6"),
   ("小6", "中1"), ("中1", "中2"), ("中2", "中3"), ("中3", "高1"), ("高1", "高2"),
   ("高2", "高3")]

/-- `promote_grade_value` (lines 525-527): `PROMOTION_MAP.get(grade, grade)`. -/
def promote_grade_value (grade : String) : String :=
  (PROMOTION_MAP.lookup grade).getD grade

structure SRow where
  student_id : String
  grade : String
  rest : List (String × String)
deriving DecidableEq, Repr

/-- Bulk promotion (lines 982-1009): reject an empty selection; count the rows
whose `grade` is in the selection (`mask.sum`); if none, warn and leave the
table alone; otherwise promote exactly the masked rows and report that count.
Returns the (possibly re-written) table and the count shown in the success
message. -/
def bulkPromote (students : List SRow) (target_grades : List String) : List SRow × Nat :=
  if target_grades = [] then (students, 0)
  else
    let mask := fun r : SRow => target_grades.contains r.grade
    let n_targets := (students.filter mask).length
    if n_targets = 0 then (students, 0)
    else
      (students.map (fun r => if mask r then { r with grade := promote_grade_value r.grade } else r),
       n_targets)

/-! ## Coaching reports (claims C2, C7; src/app.py lines 1631-1750, 1921-1974, 2043-2063)

The save path materialises an 11-column in-memory frame (the 8 schema columns
plus `updated_at`, `teacher_username`, `teacher_name`, which the column-fill
loop at lines 1646-1678 guarantees), so a coaching row is the 11-field
structure below.  The JSON cells are carried as the serialised strings the
code produces with `json.dumps`. -/

structure CRow where
  id : String
  student_id : String
  date : String
  student_eval_json : String
  teacher_eval_json : String
  study_schedule_json : String
  study_targets_json : String
  created_at : String
  updated_at : String
  teacher_username : String
  teacher_name : String
deriving DecidableEq, Repr

/-- Update the first row matching `p` (the code takes
`df[mask].index[0]` and writes through `.at`). -/
def updateFirst (p : α → Bool) (f : α → α) : List α → List α
  | [] => []
  | a :: as => if p a then f a :: as else a :: updateFirst p f as

/-- New-report id allocation (lines 1704-1717): `1` when the whole `id` column
is blank after stripping, otherwise `max` of the parseable ids plus one
(`1` again if nothing parses). -/
def allocCoachingId (rows : List CRow) : Int :=
  if rows.all (fun r => pyStrip r.id = "") then 1
  else
    match rows.filterMap (fun r => pyParseInt r.id) with
    | [] => 1
    | x :: xs => xs.foldl max x + 1

/-- The save branch (lines 1631-1736): if a row with the same
`(student_id, date)` exists, overwrite its four JSON fields, `updated_at` and
the teacher fields in place (UPDATE); otherwise allocate an id and append a
fresh row with `created_at = updated_at = now`. -/
def coachingSave (rows : List CRow) (sid d sej tej ssj stj now tu tn : String) : List CRow :=
  let mask := fun r : CRow => r.student_id == sid && r.date == d
  if rows.any mask then
    updateFirst mask
      (fun r =>
        { r with
          student_eval_json := sej
          teacher_eval_json := tej
          study_schedule_json := ssj
          study_targets_json := stj
          updated_at := now
          teacher_username := tu
          teacher_name := tn })
      rows
  else
    rows ++
      [{ id := toString (allocCoachingId rows)
         student_id := sid
         date := d
         student_eval_json := sej
         teacher_eval_json := tej
         study_schedule_json := ssj
         study_targets_json := stj
         created_at := now
         updated_at := now
         teacher_username := tu
         teacher_name := tn }]

/-- The edit branch (`btn_update_coaching`, lines 1921-1974): locate the row by
`id` (string compare) and overwrite its `date`, the four JSON fields,
`updated_at` and the teacher fields; no row found means no change. -/
def coachingEdit (rows : List CRow) (editId newDate sej tej ssj stj now tu tn : String) : List CRow :=
  if rows.any (fun r => r.id == editId) then
    updateFirst (fun r => r.id == editId)
      (fun r =>
        { r with
          date := newDate
          student_eval_json := sej
          teacher_eval_json := tej
          study_schedule_json := ssj
          study_targets_json := stj
          updated_at := now
          teacher_username := tu
          teacher_name := tn })
      rows
  else rows

/-- The delete branch (lines 2043-2063): keep every row whose `id` differs. -/
def coachingDelete (rows : List CRow) (delId : String) : List CRow :=
  rows.filter (fun r => r.id != delId)

/-- The (student_id, date) natural key of the upsert rule. -/
def ckey (r : CRow) : String × String := (r.student_id, r.date)

/-! ### Coaching persistence round trip (claim C2)

`write_sheet_df "coaching_reports"` restricts each written row to
`SHEET_SCHEMAS["coaching_reports"]` (8 columns); reading it back and running
the column-fill loop of the save path reconstitutes the 11-field row with the
missing columns as empty strings. -/

/-- The 11 columns of the in-memory coaching frame, in construction order. -/
def crowToPairs (r : CRow) : ARow :=
  [("id", r.id), ("student_id", r.student_id), ("date", r.date),
   ("student_eval_json", r.student_eval_json), ("teacher_eval_json", r.teacher_eval_json),
   ("study_schedule_json", r.study_schedule_json), ("study_targets_json", r.study_targets_json),
   ("created_at", r.created_at), ("updated_at", r.updated_at),
   ("teacher_username", r.teacher_username), ("teacher_name", r.teacher_name)]

/-- Persist through `write_sheet_df "coaching_reports"`. -/
def coachingPersist (rows : List CRow) : List ARow :=
  write_sheet_df "coaching_reports" (rows.map crowToPairs)

/-- Read a persisted row back and fill the missing columns with `""`
(`load_sheet_df` plus the column-fill loop of the save path). -/
def coachingLoadRow (p : ARow) : CRow :=
  { id := (p.lookup "id").getD ""
    student_id := (p.lookup "student_id").getD ""
    date := (p.lookup "date").getD ""
    student_eval_json := (p.lookup "student_eval_json").getD ""
    teacher_eval_json := (p.lookup "teacher_eval_json").getD ""
    study_schedule_json := (p.lookup "study_schedule_json").getD ""
    study_targets_json := (p.lookup "study_targets_json").getD ""
    created_at := (p.lookup "created_at").getD ""
    updated_at := (p.lookup "updated_at").getD ""
    teacher_username := (p.lookup "teacher_username").getD ""
    teacher_name := (p.lookup "teacher_name").getD "" }

def coachingLoad (persisted : List ARow) : List CRow :=
  persisted.map coachingLoadRow

/-- One full user-visible save: read the persisted sheet, run the save branch,
persist the result. -/
def coachingSavePersisted (persisted : List ARow) (sid d sej tej ssj stj now tu tn : String) :
    List ARow :=
  coachingPersist (coachingSave (coachingLoad persisted) sid d sej tej ssj stj now tu tn)

/-! ## JSON sub-document cells (claims C8, C9)

A stored JSON cell is either a well-formed document, the empty string, or
malformed text.  Every read site runs
`try: json.loads(cell or "{}") except Exception: default`, i.e. an empty cell
is replaced by `"{}"` before parsing and a parse failure yields the default;
both therefore decode to the empty document. -/

inductive RawDoc (α : Type) where
  | good (d : α)
  | emptyStr
  | malformed
deriving DecidableEq, Repr

/-- `try: json.loads(cell or "{}") except: dflt` where `dflt` decodes `"{}"`
(resp. `"[]"`): the empty document. -/
def parseDoc (dflt : α) : RawDoc α → α
  | .good d => d
  | .emptyStr => dflt
  | .malformed => dflt

/-! ### Exam-result aggregation (`page_grade_tracker`, lines 1259-1282) -/

structure SubjVals where
  target : Int
  score : Int
deriving DecidableEq, Repr

/-- A decoded `results_json` document: subject → {target, score}. -/
abbrev ResultsDoc := List (String × SubjVals)

structure GRow where
  date : String
  exam_name : String
  results_json : RawDoc ResultsDoc
deriving DecidableEq, Repr

/-- The x-axis label `f'{date} {exam_name}'` of line 1261. -/
def gradeLabel (r : GRow) : String := r.date ++ " " ++ r.exam_name

def resultsOf (r : GRow) : ResultsDoc := parseDoc [] r.results_json

/-- The whole aggregation of lines 1254-1282: the label list, the per-exam
total score and total target series, and the per-subject score points
(subject, label, score) in traversal order — the exact data handed to the two
charts, with the per-subject dict flattened to its insertion sequence. -/
def gradeAgg (rows : List GRow) :
    List String × List Int × List Int × List (String × String × Int) :=
  (rows.map gradeLabel,
   rows.map (fun r => ((resultsOf r).map (fun p => p.2.score)).sum),
   rows.map (fun r => ((resultsOf r).map (fun p => p.2.target)).sum),
   rows.flatMap (fun r => (resultsOf r).map (fun p => (p.1, gradeLabel r, p.2.score))))

/-! ### Eiken skill rates (`page_eiken.get_rate` lines 2305-2310,
`page_parent_report.get_skill` lines 2794-2799) -/

structure SkillInfo where
  correct : ℚ
  total : ℚ
deriving DecidableEq, Repr

/-- A decoded `scores_json` document: skill key → {correct, total}. -/
abbrev ScoresDoc := List (String × SkillInfo)

/-- `page_eiken.get_rate`: `info = s.get(k, {}) or {}`, `c = info.get("correct", 0)`,
`t = info.get("total", 0)`, `rate = (c / t * 100) if t else 0`. -/
def get_rate (s : ScoresDoc) (k : String) : ℚ × ℚ × ℚ :=
  let info := (s.lookup k).getD { correct := 0, total := 0 }
  let c := info.correct
  let t := info.total
  (c, t, if t ≠ 0 then c / t * 100 else 0)

/-- `page_parent_report.get_skill`: textually the same computation as
`get_rate`. -/
def get_skill (s : ScoresDoc) (k : String) : ℚ × ℚ × ℚ :=
  let info := (s.lookup k).getD { correct := 0, total := 0 }
  let c := info.correct
  let t := info.total
  (c, t, if t ≠ 0 then c / t * 100 else 0)

structure ERow where
  practice_date : String
  category : String
  scores_json : RawDoc ScoresDoc
deriving DecidableEq, Repr

def scoresOf (r : ERow) : ScoresDoc := parseDoc [] r.scores_json

/-- The per-row skill summary of the eiken analysis loop (lines 2298-2330):
for each record, the four `get_rate` triples in skill order. -/
def eikenAgg (rows : List ERow) :
    List ((ℚ × ℚ × ℚ) × (ℚ × ℚ × ℚ) × (ℚ × ℚ × ℚ) × (ℚ × ℚ × ℚ)) :=
  rows.map (fun r =>
    let s := scoresOf r
    (get_rate s "reading", get_rate s "listening", get_rate s "writing", get_rate s "speaking"))

/-! ## Users table (claim C10; src/app.py lines 277-314, 3326-3336) -/

structure URow where
  username : String
  name : String
  password_hash : String
  role : String
deriving DecidableEq, Repr

/-- The row `ensure_master_user` creates; the bcrypt hash of the fixed default
password is salted and therefore modelled as a parameter. -/
def masterRow (hashVal : String) : URow :=
  { username := "master", name := "管理者", password_hash := hashVal, role := "master" }

/-- `ensure_master_user` (lines 277-314): an empty users table is replaced by
the single master row; a non-empty table lacking a `username == "master"` row
gets the master row appended; otherwise nothing happens.  (The
`"username" not in df.columns` disjunct is vacuous: `load_sheet_df` always
returns the schema columns.) -/
def ensure_master_user (df : List URow) (hashVal : String) : List URow :=
  if df = [] then [masterRow hashVal]
  else if df.any (fun r => r.username == "master") then df
  else df ++ [masterRow hashVal]

/-- The account-deletion operation of `page_teacher_management`
(lines 3326-3336): when the selected user is `"master"` the delete button is
not rendered (no state change); otherwise every row with that username is
removed. -/
def deleteAccount (df : List URow) (selected : String) : List URow :=
  if selected = "master" then df
  else df.filter (fun r => r.username != selected)

/-- The teacher-creation operation (lines 3277-3296): reject a duplicate
username, otherwise append a `role = "teacher"` row. -/
def createTeacher (df : List URow) (username name hashVal : String) : List URow :=
  if df.any (fun r => r.username == username) then df
  else df ++ [{ username := username, name := name, password_hash := hashVal, role := "teacher" }]

/-! ## Concrete states used by the evaluation theorems -/

/-- The exam-result `new_row` dict of `page_grade_tracker` (lines 1200-1210),
at concrete input values. -/
def examNewRowExample : ARow :=
  [("id", "1"), ("student_id", "250001"), ("exam_category", "定期テスト"),
   ("exam_name", "1学期中間"), ("date", "2024-05-01"),
   ("results_json", "RJ"), ("created_at", "2024-05-01T10:00:00"),
   ("teacher_username", "tanaka"), ("teacher_name", "Tanaka")]

/-- First coaching save on an empty sheet, at time `2024-05-01T10:00:00`. -/
def c2Save1 : List ARow :=
  coachingSavePersisted [] "250001" "2024-05-01" "SE" "TE" "SS" "ST"
    "2024-05-01T10:00:00" "tanaka" "Tanaka"

/-- Second coaching save with the same `(student_id, date)` and identical field
values, at time `2024-05-02T09:00:00`. -/
def c2Save2 : List ARow :=
  coachingSavePersisted c2Save1 "250001" "2024-05-01" "SE" "TE" "SS" "ST"
    "2024-05-02T09:00:00" "tanaka" "Tanaka"

/-! ## Claims -/

/-- Claim C1 (code bug): the allocator's own docstring promises that a
`student_id` is never reused, but evaluating the create/cascade-delete model
shows otherwise: starting from the empty store, a student is created and gets
id 250001; a master-credentialed cascading delete then removes that student's
rows from all four tables; the very next allocation returns 250001 again —
reuse of a previously assigned id.  This refutes the claim as stated at a
concrete input. -/
theorem C1_id_reuse_eval :
    (createStudent ⟨[], [], [], []⟩).2 = 250001
    ∧ (createStudent
        (cascadeDeleteIds (createStudent ⟨[], [], [], []⟩).1 ["250001"])).2 = 250001 := by
  decide

/-- Claim C2 (code bug): saving the same CoachingReport twice for
`(student_id, date) = ("250001", "2024-05-01")` with identical field values
leaves exactly one persisted row for that key with `created_at` equal to the
FIRST save's timestamp — but the persisted row has no `updated_at` at all:
`write_sheet_df` restricts the row to `SHEET_SCHEMAS["coaching_reports"]`,
which (unlike the `init_sheets` header and the save path) omits `updated_at`,
so the claim's "updated_at equal to the second save's timestamp" fails. -/
theorem C2_upsert_persist_eval :
    c2Save2 =
      [[("id", "1"), ("student_id", "250001"), ("date", "2024-05-01"),
        ("student_eval_json", "SE"), ("teacher_eval_json", "TE"),
        ("study_schedule_json", "SS"), ("study_targets_json", "ST"),
        ("created_at", "2024-05-01T10:00:00")]]
    ∧ (∀ p ∈ c2Save2, p.lookup "updated_at" = none) := by
  decide

/-- Claim C3 (code bug): the write path persists exactly
`SHEET_SCHEMAS[name]`, and for `exam_results`, `coaching_reports` and
`eiken_records` that column list differs from the spec §6 list: a saved
exam-result row that carries `teacher_username`/`teacher_name` (as the save
path and the `init_sheets` header both intend) loses those columns when
written. -/
theorem C3_schema_eval :
    SHEET_SCHEMAS "exam_results" ≠ specSheetSchemas "exam_results"
    ∧ SHEET_SCHEMAS "coaching_reports" ≠ specSheetSchemas "coaching_reports"
    ∧ SHEET_SCHEMAS "eiken_records" ≠ specSheetSchemas "eiken_records"
    ∧ SHEET_SCHEMAS "users" = specSheetSchemas "users"
    ∧ SHEET_SCHEMAS "students" = specSheetSchemas "students"
    ∧ examNewRowExample.lookup "teacher_username" = some "tanaka"
    ∧ (write_sheet_df "exam_results" [examNewRowExample]).map (fun p => p.map Prod.fst)
        = [SHEET_SCHEMAS "exam_results"]
    ∧ ((write_sheet_df "exam_results" [examNewRowExample]).headD []).lookup "teacher_username"
        = none := by
  decide

/-- One collection step appends exactly the parse result of the cell:
a blank or unparseable cell contributes nothing, a parseable one its value. -/
theorem collect_step (acc : List Int) (v : String) :
    (let t := pyStrip v
     if t = "" then acc
     else
       match parseIntLit t.data with
       | some n => acc ++ [n]
       | none => acc)
    = acc ++ (pyParseInt v).toList := by
  unfold pyParseInt
  by_cases h : pyStrip v = ""
  · simp [h, parseIntLit, parseDigits]
  · simp only [h, if_false]
    cases parseIntLit (pyStrip v).data <;> simp

/-- The collection loop over one column equals the accumulator followed by the
parseable values of the column. -/
theorem collectInto_eq (col : List String) (acc : List Int) :
    collectInto acc col = acc ++ col.filterMap pyParseInt := by
  induction col generalizing acc with
  | nil => simp [collectInto]
  | cons v vs ih =>
    rw [collectInto, List.foldl_cons]
    rw [show List.foldl _ _ vs = collectInto _ vs from rfl, ih, collect_step]
    cases hv : pyParseInt v <;> simp [hv, List.filterMap_cons]

/-- The parseable-as-integer `student_id` values of the four tables, in table
order: blank and unparseable cells contribute nothing. -/
def parsedStudentIds (s e c k : List String) : List Int :=
  (s ++ e ++ c ++ k).filterMap pyParseInt

/-- Claim C4: for every state of the four tables, `generate_new_student_id`
collects exactly the parseable-as-integer `student_id` values across students,
exam_results, coaching_reports and eiken_records (blank and unparseable cells
are skipped, never fatal), and returns their maximum plus one — or 250001 when
no parseable id exists in any of the four tables. -/
theorem C4_generate_new_student_id_spec (s e c k : List String) :
    (parsedStudentIds s e c k = [] → generate_new_student_id s e c k = 250001)
    ∧ (∀ m, (parsedStudentIds s e c k).max? = some m
        → generate_new_student_id s e c k = m + 1) := by
  set ids := parsedStudentIds s e c k with hids
  have hall :
      collectInto (collectInto (collectInto (collectInto [] s) e) c) k = ids := by
    simp [collectInto_eq, hids, parsedStudentIds]
  unfold generate_new_student_id
  rw [hall]
  constructor
  · intro h
    rw [h]
  · intro m hm
    cases hid : ids with
    | nil => rw [hid] at hm; simp [List.max?] at hm
    | cons x xs =>
      rw [hid] at hm
      rw [show (x :: xs).max? = some (xs.foldl max x) from rfl] at hm
      show List.foldl max x xs + 1 = m + 1
      injection hm with hm
      omega

/-- Witness for C4: a table set with one blank and one unparseable cell yields
the maximum parseable id plus one; a table set with only blank cells yields the
seed 250001. -/
theorem C4_generate_new_student_id_spec_witness :
    generate_new_student_id ["250001", " ", "abc"] [] ["250003"] [] = 250003 + 1
    ∧ generate_new_student_id [" "] [""] [] [] = 250001 :=
  ⟨(C4_generate_new_student_id_spec ["250001", " ", "abc"] [] ["250003"] []).2 250003 (by decide),
   (C4_generate_new_student_id_spec [" "] [""] [] []).1 (by decide)⟩

/-- Claim C8: the per-skill rate computation never divides: `get_skill` is the
same function as `get_rate`, and whenever the looked-up `total` is 0 the
returned rate is 0, whatever `correct` holds. -/
theorem C8_rate_zero_total (s : ScoresDoc) (k : String)
    (h : (get_rate s k).2.1 = 0) :
    (get_rate s k).2.2 = 0 ∧ get_skill s k = get_rate s k := by
  refine ⟨?_, rfl⟩
  unfold get_rate at h ⊢
  simp only at h ⊢
  rw [h] at *
  simp

/-- Witness for C8: a scores document whose reading skill has `total = 0` and a
nonzero `correct` produces rate 0. -/
theorem C8_rate_zero_total_witness :
    (get_rate [("reading", { correct := 7, total := 0 })] "reading").2.2 = 0
    ∧ get_skill [("reading", { correct := 7, total := 0 })] "reading"
        = get_rate [("reading", { correct := 7, total := 0 })] "reading" :=
  C8_rate_zero_total [("reading", { correct := 7, total := 0 })] "reading" (by decide)

/-- Claim C5: for every state of the four tables and every selected id set,
the master-credentialed cascading delete keeps exactly the rows whose
`student_id` is NOT in the selected set — it removes every matching row from
students, exam_results, coaching_reports and eiken_records, and no other
row. -/
theorem C5_cascade_membership (t : DTables) (ids : List String) (r : DRow) :
    (r ∈ (cascadeDelete t ids).students ↔ r ∈ t.students ∧ r.student_id ∉ ids)
    ∧ (r ∈ (cascadeDelete t ids).exam_results ↔ r ∈ t.exam_results ∧ r.student_id ∉ ids)
    ∧ (r ∈ (cascadeDelete t ids).coaching_reports ↔ r ∈ t.coaching_reports ∧ r.student_id ∉ ids)
    ∧ (r ∈ (cascadeDelete t ids).eiken_records ↔ r ∈ t.eiken_records ∧ r.student_id ∉ ids) := by
  unfold cascadeDelete
  refine ⟨by simp [List.mem_filter], ?_, ?_, ?_⟩ <;>
    · simp only []
      split
      · rename_i hemp
        simp [hemp]
      · simp [List.mem_filter]

/-- Claim C6 counterexample: with the single selected grade "高3" (a terminal
grade outside the promotion ladder) and one student in that grade, bulk
promotion changes no row at all (the table is returned unchanged) yet reports
a count of 1 — so the reported number is not "the count of rows actually
changed" as claimed. -/
theorem C6_reported_count_counterexample :
    (bulkPromote [{ student_id := "250001", grade := "高3", rest := [] }] ["高3"]).1
        = [{ student_id := "250001", grade := "高3", rest := [] }]
    ∧ (bulkPromote [{ student_id := "250001", grade := "高3", rest := [] }] ["高3"]).2 = 1 := by
  decide

/-- The per-row effect of bulk promotion: a row whose grade is in the selected
set gets its ladder image, any other row stays as it is. -/
def promoteRow (targets : List String) (r : SRow) : SRow :=
  if targets.contains r.grade then { r with grade := promote_grade_value r.grade } else r

/-- Claim C6 (amended): for every non-empty grade set, bulk promotion replaces
the grade of every row whose grade is in the set with its image under the
promotion ladder (grades outside the ladder, e.g. terminal ones, map to
themselves, so those rows are left unchanged without error), leaves all other
rows unchanged, and reports the count of rows whose grade is in the selected
set — which equals the count of rows actually changed only when every matched
grade has a successor in the ladder. -/
theorem C6_bulk_promote_amended (students : List SRow) (targets : List String)
    (hne : targets ≠ []) :
    (bulkPromote students targets).1 = students.map (promoteRow targets)
    ∧ (bulkPromote students targets).2
        = (students.filter (fun r => targets.contains r.grade)).length
    ∧ (∀ g, PROMOTION_MAP.lookup g = none → promote_grade_value g = g) := by
  have hmapnone :
      (students.filter (fun r => targets.contains r.grade)).length = 0 →
        students.map (promoteRow targets) = students := by
    intro hzero
    have hnil : students.filter (fun r => targets.contains r.grade) = [] :=
      List.length_eq_zero.mp hzero
    have hnone := List.filter_eq_nil_iff.mp hnil
    calc students.map (promoteRow targets)
        = students.map id := by
          apply List.map_congr_left
          intro r hr
          have hfalse : targets.contains r.grade = false := by
            simpa using hnone r hr
          have hnmem : r.grade ∉ targets := by simpa using hfalse
          simp [promoteRow, hfalse, hnmem]
      _ = students := List.map_id students
  refine ⟨?_, ?_, ?_⟩
  · unfold bulkPromote
    rw [if_neg hne]
    simp only []
    split
    · rename_i hzero
      exact (hmapnone hzero).symm
    · rfl
  · unfold bulkPromote
    rw [if_neg hne]
    simp only []
    split
    · rename_i hzero
      exact hzero.symm
    · rfl
  · intro g hg
    unfold promote_grade_value
    rw [hg]
    rfl

/-- The single-row table used by the C6 witness. -/
def c6wRow : SRow := { student_id := "1", grade := "中1", rest := [] }

/-- Witness for C6: promoting the single grade "中1" rewrites the one matching
row via the ladder and reports the matched-row count. -/
theorem C6_bulk_promote_amended_witness :
    (bulkPromote [c6wRow] ["中1"]).1 = [c6wRow].map (promoteRow ["中1"])
    ∧ (bulkPromote [c6wRow] ["中1"]).2
        = ([c6wRow].filter (fun r => ["中1"].contains r.grade)).length :=
  ⟨(C6_bulk_promote_amended [c6wRow] ["中1"] (by decide)).1,
   (C6_bulk_promote_amended [c6wRow] ["中1"] (by decide)).2.1⟩

/-- Two coaching rows of the same student on different dates, used by the C7
counterexample. -/
def c7Rows : List CRow :=
  [{ id := "1", student_id := "250001", date := "2024-05-01",
     student_eval_json := "SE1", teacher_eval_json := "TE1",
     study_schedule_json := "SS1", study_targets_json := "ST1",
     created_at := "T1", updated_at := "T1", teacher_username := "t", teacher_name := "T" },
   { id := "2", student_id := "250001", date := "2024-05-02",
     student_eval_json := "SE2", teacher_eval_json := "TE2",
     study_schedule_json := "SS2", study_targets_json := "ST2",
     created_at := "T2", updated_at := "T2", teacher_username := "t", teacher_name := "T" }]

/-- Claim C7 counterexample: the per-(student_id, date) uniqueness is NOT
preserved by every operation.  From a state where student 250001 has reports
on 2024-05-01 and 2024-05-02 (keys unique), editing report id 2 and setting
its date to 2024-05-01 yields two rows with the key ("250001", "2024-05-01"):
the edit-by-id branch never checks the new date against existing reports. -/
theorem C7_edit_duplicate_counterexample :
    ((c7Rows.map ckey).Nodup)
    ∧ ¬ (((coachingEdit c7Rows "2" "2024-05-01" "SE2" "TE2" "SS2" "ST2" "T3" "t" "T").map
          ckey).Nodup) := by
  decide

/-- Updating rows in place with a key-preserving field update leaves the key
list unchanged. -/
theorem map_key_updateFirst (p : CRow → Bool) (f : CRow → CRow)
    (hf : ∀ r, ckey (f r) = ckey r) (l : List CRow) :
    (updateFirst p f l).map ckey = l.map ckey := by
  induction l with
  | nil => rfl
  | cons a as ih =>
    unfold updateFirst
    by_cases hp : p a
    · simp [hp, hf a]
    · simp [hp, ih]

/-- Claim C7 (amended): the save/upsert operation and the delete operation do
preserve at-most-one-row-per-(student_id, date): an upsert either rewrites the
matched row in place (its key unchanged) or appends a key that was not
present, and a delete only removes rows.  (The edit-by-id operation does not
preserve it — see the counterexample.) -/
theorem C7_save_delete_preserve_key_uniqueness :
    (∀ (rows : List CRow) (sid d sej tej ssj stj now tu tn : String),
        ((rows.map ckey).Nodup) →
        (((coachingSave rows sid d sej tej ssj stj now tu tn).map ckey).Nodup))
    ∧ (∀ (rows : List CRow) (delId : String),
        ((rows.map ckey).Nodup) → (((coachingDelete rows delId).map ckey).Nodup)) := by
  constructor
  · intro rows sid d sej tej ssj stj now tu tn hnd
    unfold coachingSave
    by_cases hany : rows.any (fun r : CRow => r.student_id == sid && r.date == d)
    · rw [if_pos hany, map_key_updateFirst]
      · exact hnd
      · intro r
        rfl
    · rw [if_neg hany, List.map_append]
      rw [List.nodup_append]
      refine ⟨hnd, List.nodup_singleton _, ?_⟩
      intro x hx hx1
      simp only [List.map_cons, List.map_nil, List.mem_singleton] at hx1
      subst hx1
      rcases List.mem_map.mp hx with ⟨r, hr, hkey⟩
      apply hany
      rw [List.any_eq_true]
      refine ⟨r, hr, ?_⟩
      have h1 : r.student_id = sid := congrArg Prod.fst hkey
      have h2 : r.date = d := congrArg Prod.snd hkey
      simp [ckey, h1, h2]
  · intro rows delId hnd
    exact hnd.sublist ((List.filter_sublist rows).map ckey)

/-- Witness for C7: from the concrete two-row state (keys unique), saving a
report for a fresh date and deleting a report by id both keep the keys
unique. -/
theorem C7_save_delete_preserve_key_uniqueness_witness :
    (((coachingSave c7Rows "250001" "2024-05-03" "SE" "TE" "SS" "ST" "T3" "t" "T").map
        ckey).Nodup)
    ∧ (((coachingDelete c7Rows "2").map ckey).Nodup) :=
  ⟨(C7_save_delete_preserve_key_uniqueness.1 c7Rows "250001" "2024-05-03" "SE" "TE" "SS" "ST"
      "T3" "t" "T") (by decide),
   (C7_save_delete_preserve_key_uniqueness.2 c7Rows "2") (by decide)⟩

/-- Replacing one list element by another with the same image under `f` leaves
the mapped list unchanged. -/
theorem map_set_of_eq (f : α → β) (l : List α) (i : Nat) (a b : α)
    (h : l.get? i = some a) (hf : f b = f a) :
    (l.set i b).map f = l.map f := by
  induction l generalizing i with
  | nil => rfl
  | cons hd tl ih =>
    cases i with
    | zero =>
      simp only [List.get?] at h
      injection h with h
      subst h
      simp [hf]
    | succ j =>
      simp only [List.get?] at h
      simp [ih j h]

/-- Replacing one list element by another with the same image under `g` leaves
the flat-mapped list unchanged. -/
theorem flatMap_set_of_eq (g : α → List β) (l : List α) (i : Nat) (a b : α)
    (h : l.get? i = some a) (hg : g b = g a) :
    (l.set i b).flatMap g = l.flatMap g := by
  induction l generalizing i with
  | nil => rfl
  | cons hd tl ih =>
    cases i with
    | zero =>
      simp only [List.get?] at h
      injection h with h
      subst h
      simp [hg]
    | succ j =>
      simp only [List.get?] at h
      simp [ih j h]

/-- Claim C9: a row whose JSON sub-document column holds the empty string or
malformed text contributes to every read-side aggregation exactly as if the
column held the empty sub-document: both the exam-result aggregation of
`page_grade_tracker` and the skill-rate aggregation of `page_eiken` return
the same value on the original table and on the table where the bad cell is
replaced by the well-formed empty document, and neither computation can
raise. -/
theorem C9_malformed_tolerance :
    (∀ (rows : List GRow) (i : Nat) (r : GRow), rows.get? i = some r →
        (r.results_json = RawDoc.emptyStr ∨ r.results_json = RawDoc.malformed) →
        gradeAgg rows = gradeAgg (rows.set i { r with results_json := RawDoc.good [] }))
    ∧ (∀ (rows : List ERow) (i : Nat) (r : ERow), rows.get? i = some r →
        (r.scores_json = RawDoc.emptyStr ∨ r.scores_json = RawDoc.malformed) →
        eikenAgg rows = eikenAgg (rows.set i { r with scores_json := RawDoc.good [] })) := by
  constructor
  · intro rows i r hget hbad
    have hres : resultsOf { r with results_json := RawDoc.good [] } = resultsOf r := by
      rcases hbad with hb | hb <;> simp [resultsOf, hb, parseDoc]
    have hlabel : gradeLabel { r with results_json := RawDoc.good [] } = gradeLabel r := rfl
    unfold gradeAgg
    rw [map_set_of_eq gradeLabel rows i r _ hget hlabel,
      map_set_of_eq _ rows i r _ hget (by rw [hres]),
      map_set_of_eq _ rows i r _ hget (by rw [hres]),
      flatMap_set_of_eq _ rows i r _ hget (by rw [hres, hlabel])]
  · intro rows i r hget hbad
    have hsc : scoresOf { r with scores_json := RawDoc.good [] } = scoresOf r := by
      rcases hbad with hb | hb <;> simp [scoresOf, hb, parseDoc]
    unfold eikenAgg
    rw [map_set_of_eq _ rows i r _ hget (by rw [hsc])]

/-- A one-row exam table whose `results_json` is malformed. -/
def c9gBad : GRow :=
  { date := "2024-05-01", exam_name := "1学期中間", results_json := RawDoc.malformed }

/-- A one-row eiken table whose `scores_json` is the empty string. -/
def c9eBad : ERow :=
  { practice_date := "2024-05-01", category := "c", scores_json := RawDoc.emptyStr }

/-- Witness for C9: on a one-row table whose JSON cell is malformed (resp.
empty), both aggregations coincide with the empty-document substitution. -/
theorem C9_malformed_tolerance_witness :
    gradeAgg [c9gBad] = gradeAgg ([c9gBad].set 0 { c9gBad with results_json := RawDoc.good [] })
    ∧ eikenAgg [c9eBad]
        = eikenAgg ([c9eBad].set 0 { c9eBad with scores_json := RawDoc.good [] }) :=
  ⟨C9_malformed_tolerance.1 [c9gBad] 0 c9gBad rfl (Or.inr rfl),
   C9_malformed_tolerance.2 [c9eBad] 0 c9eBad rfl (Or.inl rfl)⟩

/-- Claim C10 counterexample: `ensure_master_user` only checks for a row with
username "master" — it does not check or repair the role.  Started on a users
table whose master-named row has role "teacher", the self-heal changes
nothing, and the resulting table has no row with username "master" AND role
"master", refuting the claim as stated. -/
theorem C10_master_role_counterexample :
    ensure_master_user
        [{ username := "master", name := "管理者", password_hash := "h", role := "teacher" }] "h2"
      = [{ username := "master", name := "管理者", password_hash := "h", role := "teacher" }]
    ∧ ¬ ∃ r ∈ ensure_master_user
          [{ username := "master", name := "管理者", password_hash := "h", role := "teacher" }] "h2",
        r.username = "master" ∧ r.role = "master" := by
  decide

/-- Claim C10 (amended): after `ensure_master_user` runs the users table always
contains a row with username "master"; whenever no master-named row existed
beforehand, the created row has role "master" (a pre-existing master-named row
is kept as is, its role included); `ensure_master_user` is idempotent once a
master-named row exists; and neither the account-deletion operation (guarded
against the selection "master") nor teacher creation can remove a
master-named row. -/
theorem C10_master_self_heal_amended :
    (∀ (df : List URow) (hv : String),
        ∃ r ∈ ensure_master_user df hv, r.username = "master")
    ∧ (∀ (df : List URow) (hv : String), (∀ r ∈ df, r.username ≠ "master") →
        masterRow hv ∈ ensure_master_user df hv)
    ∧ (∀ (df : List URow) (hv : String), (∃ r ∈ df, r.username = "master") →
        ensure_master_user df hv = df)
    ∧ (∀ (df : List URow) (sel : String) (r : URow), r ∈ df → r.username = "master" →
        r ∈ deleteAccount df sel)
    ∧ (∀ (df : List URow) (u n hv : String) (r : URow), r ∈ df →
        r ∈ createTeacher df u n hv) := by
  refine ⟨?_, ?_, ?_, ?_, ?_⟩
  · intro df hv
    unfold ensure_master_user
    by_cases hdf : df = []
    · refine ⟨masterRow hv, ?_, rfl⟩
      simp [hdf, masterRow]
    · rw [if_neg hdf]
      by_cases hany : df.any (fun r => r.username == "master")
      · rw [if_pos hany]
        rcases List.any_eq_true.mp hany with ⟨r, hr, hru⟩
        exact ⟨r, hr, by simpa using hru⟩
      · rw [if_neg hany]
        exact ⟨masterRow hv, List.mem_append_right _ (List.mem_singleton_self _), rfl⟩
  · intro df hv hno
    unfold ensure_master_user
    by_cases hdf : df = []
    · simp [hdf, masterRow]
    · rw [if_neg hdf]
      have hany : df.any (fun r => r.username == "master") = false := by
        rw [List.any_eq_false]
        intro r hr
        simpa using hno r hr
      rw [hany]
      simp
  · intro df hv hex
    rcases hex with ⟨r, hr, hru⟩
    unfold ensure_master_user
    have hdf : df ≠ [] := by
      intro h
      rw [h] at hr
      exact (List.not_mem_nil r) hr
    rw [if_neg hdf]
    have hany : df.any (fun r => r.username == "master") = true := by
      rw [List.any_eq_true]
      exact ⟨r, hr, by simpa using hru⟩
    rw [hany]
    simp
  · intro df sel r hr hru
    unfold deleteAccount
    by_cases hsel : sel = "master"
    · rw [if_pos hsel]
      exact hr
    · rw [if_neg hsel]
      rw [List.mem_filter]
      refine ⟨hr, ?_⟩
      have : r.username ≠ sel := by
        rw [hru]
        intro h
        exact hsel h.symm
      simpa using this
  · intro df u n hv r hr
    unfold createTeacher
    by_cases hany : df.any (fun x => x.username == u)
    · rw [if_pos hany]
      exact hr
    · rw [if_neg hany]
      exact List.mem_append_left _ hr

/-- Witness for C10: the heal creates the role-"master" row on an empty table,
is a no-op on a table that already has it, and the delete guard keeps the
master row when some other account is deleted. -/
theorem C10_master_self_heal_amended_witness :
    masterRow "h" ∈ ensure_master_user [] "h"
    ∧ ensure_master_user [masterRow "h"] "h2" = [masterRow "h"]
    ∧ masterRow "h" ∈ deleteAccount [masterRow "h"] "tanaka" :=
  ⟨C10_master_self_heal_amended.2.1 [] "h" (by decide),
   C10_master_self_heal_amended.2.2.1 [masterRow "h"] "h2"
     ⟨masterRow "h", by simp, rfl⟩,
   C10_master_self_heal_amended.2.2.2.1 [masterRow "h"] "tanaka" (masterRow "h")
     (by simp) rfl⟩

end Ubase
